import Mathlib

/-!
Verification of the request-dispatch core of a small HTTP daemon (`mod.js`).

The program serves static files via an external primitive (`serveDir`) and
falls back to a caller-supplied dynamic handler; it builds a default header
template at startup, resolves the port from options/CLI arguments, applies a
CSP suppression for "safe HTML" GETs, and renders custom 404/500 pages with
access logging.

The embedding below translates `mod.js` shallowly:
* JS `Headers` objects become association lists of lowercased names paired
  with trimmed values (`HeadersL`); `append`/`set` follow the WHATWG
  semantics the runtime implements.
* The options bag becomes a structure of `Option` fields so that an absent
  key (`undefined`, falsy, not `in opts`) is distinguished from an explicit
  boolean, exactly as the source distinguishes `opts.cors` from
  `'cors' in opts ? opts.cors : true`.
* Filesystem probing (`Deno.statSync`) and the external static-file
  primitive (`serveDir`) are oracles passed as parameters.
* The per-request dispatch (the body of the `Deno.serve` callback) becomes a
  pure function from the handler's behaviour on this request to the final
  outcome paired with the list of emitted diagnostic events.  A handler may
  return a response, return nothing, return a pending (promise) result, or
  throw; in each case it may also have mutated the header copy it was given.
  Crucially, the source returns a pending result from inside `try` without
  awaiting it, so a rejection escapes the `catch` block: the embedding
  records this as `Outcome.uncaughtRejection`.
-/

namespace Httpd

/-- JS truthiness of an absent-or-boolean option value: `undefined` and
`false` are falsy, `true` is truthy. -/
def truthy (b : Option Bool) : Bool := b.getD false

/-- The options bag accepted by `httpd(handler, opts)`: recognized keys
`port`, `cors`, `ls`, `headers`; `none` models an absent key. -/
structure Opts where
  port : Option Nat
  cors : Option Bool
  ls : Option Bool
  headers : Option (List String)

/-- A parsed request URL together with the method, as the dispatch reads it
(`req.method`, `url.pathname`, `url.search`, `url.hash`, `url.username`,
`url.password`). -/
structure Request where
  method : String
  pathname : String
  search : String
  hash : String
  username : String
  password : String

/-! Character-list implementations of the JS string operations the source
uses (`toLowerCase` normalization inside `Headers`, `trim`, `slice`,
`startsWith`/`endsWith` prefix and suffix regex tests, `split(':')`,
`join(':')`, `Number` on digit strings).  They are written by structural
recursion on `String.data` so that proofs can evaluate them. -/

/-- ASCII lowercasing of one character (as JS/WHATWG header-name
normalization does). -/
def lowerChar (c : Char) : Char :=
  if 65 ≤ c.toNat && c.toNat ≤ 90 then Char.ofNat (c.toNat + 32) else c

/-- ASCII lowercasing of a string. -/
def lowerStr (s : String) : String := String.mk (s.data.map lowerChar)

/-- Whitespace as stripped from header values by `Headers` normalization. -/
def isWsC (c : Char) : Bool := c == ' ' || c == '\t' || c == '\n' || c == '\r'

/-- Strip leading and trailing whitespace. -/
def trimStr (s : String) : String :=
  String.mk (((s.data.dropWhile isWsC).reverse.dropWhile isWsC).reverse)

/-- `s` starts with `p` (the anchored regex test `/^p/` of line 64). -/
def strStartsWith (s p : String) : Bool := p.data.isPrefixOf s.data

/-- `s` ends with `p` (`String.prototype.endsWith`, lines 59). -/
def strEndsWith (s p : String) : Bool := p.data.isSuffixOf s.data

/-- `s.slice(n)` for a non-negative index. -/
def strDrop (s : String) (n : Nat) : String := String.mk (s.data.drop n)

/-- `Number` of a string of decimal digits. -/
def digitsVal (l : List Char) : Nat :=
  l.foldl (fun acc c => acc * 10 + (c.toNat - 48)) 0

/-- `String.prototype.split(':')` on the character list. -/
def splitOnColon : List Char → List (List Char)
  | [] => [[]]
  | c :: rest =>
      let r := splitOnColon rest
      if c == ':' then [] :: r
      else (c :: r.headD []) :: r.tail

/-- `Array.prototype.join(':')` on character lists. -/
def joinColon : List (List Char) → List Char
  | [] => []
  | [x] => x
  | x :: xs => x ++ ':' :: joinColon xs

/-- A JS `Headers` object: ordered (lowercased name, trimmed value) pairs. -/
abbrev HeadersL : Type := List (String × String)

/-- `Headers.append`: normalize the name to lowercase, trim the value,
append at the end (duplicates retained). -/
def happend (h : HeadersL) (n v : String) : HeadersL :=
  List.append h [(lowerStr n, trimStr v)]

/-- Core recursion of `Headers.set`: replace the first pair with the given
(already lowercased) name and drop the remaining ones; append when absent. -/
def hsetGo (key v : String) : List (String × String) → List (String × String)
  | [] => [(key, v)]
  | p :: rest =>
      if p.1 == key then (key, v) :: rest.filter (fun q => !(q.1 == key))
      else p :: hsetGo key v rest

/-- `Headers.set`: name lowercased, value trimmed, existing entries of that
name replaced by the single new one. -/
def hset (h : HeadersL) (n v : String) : HeadersL :=
  hsetGo (lowerStr n) (trimStr v) h

/-- All values stored under a header name (name lookup is lowercased, as in
`Headers.get` / `Headers.getAll`). -/
def valuesOf (h : HeadersL) (n : String) : List String :=
  (h.filter (fun p => p.1 == lowerStr n)).map (fun p => p.2)

/-- `^-p([0-9]{3,5})$`: the CLI port flag pattern of line 27. -/
def portFlagMatch (s : String) : Bool :=
  strStartsWith s "-p" && decide (3 ≤ (s.data.drop 2).length) &&
    decide ((s.data.drop 2).length ≤ 5) && (s.data.drop 2).all (fun c => c.isDigit)

/-- Line 27: `Number(opts.port ?? ((Deno.args.find(e =>
e.match(/^-p([0-9]{3,5})$/)?.pop())) || '-p5000').slice(2))`.  The match of
the predicate is truthy exactly when the regex matches (the captured digit
group is non-empty), so `find` yields the first argument matching the
pattern; its digits after `-p` give the port. -/
def resolvePort (optPort : Option Nat) (args : List String) : Nat :=
  match optPort with
  | some p => p
  | none => digitsVal (((args.find? portFlagMatch).getD "-p5000").data.drop 2)

/-- Name part of a configured raw header string: everything before the first
colon (`header.split(':')[0]`). -/
def headerNameOf (header : String) : String :=
  String.mk ((splitOnColon header.data).headD [])

/-- Value part of a configured raw header string: everything after the first
colon, rejoined (`headerSplit.slice(1).join(':')`). -/
def headerValueOf (header : String) : String :=
  String.mk (joinColon (splitOnColon header.data).tail)

/-- Lines 32–44: the default header template built once at startup.  Seeded
with content-type=text/html, extended with each configured raw header, and —
only when `opts.cors` is truthy (`if (opts.cors)`) — with the two CORS
headers. -/
def headers_defaults (opts : Opts) : HeadersL :=
  let h : HeadersL := happend [] "content-type" "text/html"
  let h := (opts.headers.getD []).foldl
    (fun acc header => happend acc (headerNameOf header) (headerValueOf header)) h
  if truthy opts.cors then
    happend (happend h "access-control-allow-origin" "*")
      "access-control-allow-headers"
      "Origin, X-Requested-With, Content-Type, Accept, Range"
  else h

/-- Line 52: the candidate path handed to `Deno.statSync`:
`url.pathname.slice(1) || (opts.ls ? '.' : 'index.html')`. -/
def staticCandidate (opts : Opts) (pathname : String) : String :=
  let stripped := strDrop pathname 1
  if stripped == "" then (if truthy opts.ls then "." else "index.html")
  else stripped

/-- Lines 56–59: the safe-HTML exemption condition. -/
def safe_htm (req : Request) : Bool :=
  req.method == "GET" &&
    req.search == "" && req.hash == "" &&
    req.username == "" && req.password == "" &&
    (strEndsWith req.pathname ".html" || strEndsWith req.pathname ".htm")

/-- The options bundle handed to the external static-file primitive. -/
structure ServeOpts where
  enableCors : Bool
  showDirListing : Bool
  headers : List String

/-- Lines 61–65: `serve_opts` as built per request.  Note `enableCors` and
`showDirListing` default an absent key to `true` (`'cors' in opts ?
opts.cors : true`), unlike the startup template above. -/
def serve_opts (opts : Opts) (req : Request) : ServeOpts :=
  { enableCors := opts.cors.getD true
    showDirListing := opts.ls.getD true
    headers := (opts.headers.getD []).filter
      (fun e => !(safe_htm req) || !(strStartsWith e "content-security-policy")) }

end Httpd

namespace Httpd

/-- Lines 91–177: the HTML head of the error page template, up to the
interpolated message. -/
def errorHead : String :=
  "\n<center>\n<br><br><br>\n\n<svg version=\"1.0\" xmlns=\"http://www.w3.org/2000/svg\"\n width=\"300.000000pt\" height=\"269.000000pt\" viewBox=\"0 0 300.000000 269.000000\"\n preserveAspectRatio=\"xMidYMid meet\">\n<g transform=\"translate(0.000000,269.000000) scale(0.100000,-0.100000)\"\nfill=\"#000000\" stroke=\"none\">\n<path d=\"M1180 2603 c-14 -2 -72 -15 -130 -30 -354 -87 -574 -198 -760 -383\n-185 -185 -239 -313 -240 -575 0 -118 12 -189 61 -365 46 -163 108 -299 199\n-437 33 -51 60 -101 60 -112 0 -15 6 -21 23 -21 28 0 47 -17 47 -42 0 -10 6\n-18 12 -18 7 0 67 -55 133 -122 146 -150 194 -179 368 -229 73 -20 195 -60\n272 -87 207 -75 353 -102 543 -102 115 0 160 4 182 15 15 8 30 18 32 23 1 5\n44 30 93 56 86 46 180 108 187 124 2 4 48 40 103 79 127 91 234 196 323 315\n160 213 242 471 242 756 0 119 -3 147 -25 217 -44 138 -113 234 -274 379 -105\n96 -299 246 -317 246 -3 0 -38 19 -77 42 -88 52 -197 101 -297 133 -41 13\n-122 40 -178 60 -163 57 -320 85 -467 83 -49 0 -101 -3 -115 -5z m332 -118 c3\n-14 6 -123 7 -242 0 -120 4 -264 7 -320 4 -66 3 -103 -3 -103 -16 0 -22 91\n-30 403 -4 197 -3 287 4 287 6 0 13 -11 15 -25z m-433 -199 c1 -71 -1 -127 -4\n-125 -2 3 -7 72 -9 155 -3 88 -2 139 3 124 5 -14 9 -83 10 -154z m79 33 l-3\n-124 -5 132 c-3 73 -1 129 3 124 4 -4 6 -64 5 -132z m-371 59 c1 -20 29 -317\n52 -545 3 -40 4 -73 1 -73 -13 0 -62 372 -74 560 -2 25 -7 53 -11 63 -5 13 -2\n17 11 17 13 0 20 -8 21 -22z m450 -225 c-2 -38 -3 -7 -3 67 0 74 1 105 3 68 2\n-38 2 -98 0 -135z m-603 5 c3 -48 13 -140 21 -205 8 -65 15 -134 14 -153 -1\n-72 -17 13 -44 235 -14 121 -28 234 -31 252 -3 20 0 33 8 35 15 5 22 -32 32\n-164z m1228 -523 c3 -110 1 -187 -3 -171 -4 15 -10 207 -13 425 -4 318 -3 352\n4 171 4 -124 10 -315 12 -425z m-1321 479 c20 -159 38 -316 44 -389 4 -36 2\n-44 -4 -30 -6 11 -24 124 -41 250 -17 127 -35 247 -40 267 -4 20 -5 40 -2 43\n18 17 28 -16 43 -141z m1718 -146 c1 -144 0 -260 -2 -258 -14 15 -16 520 -2\n520 1 0 3 -118 4 -262z m-1809 106 c16 -104 37 -264 59 -472 10 -88 -5 -88\n-19 0 -6 40 -20 127 -30 193 -11 66 -27 169 -36 230 -8 60 -20 116 -26 123 -8\n9 -6 18 7 32 10 11 20 19 22 17 2 -2 12 -58 23 -123z m1912 54 c-10 -22 -11\n-21 -11 12 -1 26 2 31 11 22 8 -8 8 -17 0 -34z m-2018 -35 c8 -27 86 -578 86\n-611 0 -15 4 -32 9 -38 6 -5 5 -18 -3 -32 -10 -19 -14 -4 -29 115 -10 76 -24\n176 -32 223 -8 47 -21 137 -31 200 -9 63 -20 122 -25 131 -8 16 -3 29 12 29 4\n0 10 -8 13 -17z m-65 -108 l0 -30 -14 34 c-8 18 -12 38 -9 43 10 16 24 -13 23\n-47z m2075 -97 c-3 -46 -7 -272 -8 -503 -4 -474 -7 -541 -16 -405 -7 94 6 865\n16 948 9 71 14 47 8 -40z m-2061 12 c4 -30 3 -38 -3 -25 -8 19 -14 83 -6 74 2\n-2 6 -24 9 -49z m2151 -412 c-7 -517 -20 -764 -23 -443 -1 105 -2 228 -2 275\n1 105 24 620 28 620 1 0 0 -204 -3 -452z m201 122 c-11 -356 -25 -705 -31\n-738 -3 -20 -10 -32 -17 -29 -13 4 -12 142 3 502 5 116 10 266 11 335 1 69 4\n140 7 159 l5 33 14 -33 c12 -27 13 -72 8 -229z m-2477 132 c10 -66 28 -190 72\n-512 5 -36 9 -74 9 -85 -2 -27 -17 43 -29 130 -5 39 -12 80 -15 92 -3 13 -14\n87 -25 166 -10 79 -24 164 -29 188 -12 52 -14 116 -3 105 4 -4 13 -42 20 -84z\nm70 -2 l0 -35 -8 30 c-4 17 -8 44 -8 60 0 29 0 29 8 5 4 -14 8 -41 8 -60z\nm1289 23 c-4 -17 -4 -17 -12 0 -4 9 -4 25 0 35 8 16 8 16 12 0 3 -10 3 -26 0\n-35z m-194 -22 c13 -5 27 -19 30 -31 5 -19 11 -22 44 -18 46 6 144 -34 185\n-76 80 -81 180 -242 222 -356 36 -96 44 -141 56 -295 6 -77 18 -205 26 -285 8\n-80 17 -169 20 -199 3 -29 0 -82 -7 -116 -11 -56 -10 -66 5 -89 13 -20 14 -27\n4 -30 -70 -20 -106 -28 -183 -42 -49 -8 -97 -22 -106 -30 -18 -16 -75 -9 -216\n27 -107 26 -156 47 -150 62 2 7 10 61 18 120 11 89 11 110 0 116 -10 6 -14 46\n-15 152 -1 79 -8 193 -15 253 -15 124 -12 129 58 142 20 4 43 10 52 15 25 13\n29 46 9 64 -18 16 -24 15 -99 -14 -44 -17 -89 -31 -99 -31 -11 0 -36 -7 -56\n-15 -85 -36 -375 -26 -471 15 -67 29 -139 105 -153 162 -7 26 -12 58 -12 71 0\n53 98 203 163 249 l29 21 -7 -22 c-14 -45 18 -81 55 -61 19 10 31 52 21 69 -4\n5 -18 14 -31 19 -23 9 -19 13 59 51 47 22 97 41 111 41 15 0 40 7 56 15 73 36\n341 67 397 46z m1519 -299 c0 -96 -25 -282 -48 -361 -10 -32 -11 -1 -3 84 4\n50 8 140 8 200 1 61 4 148 8 195 l7 85 14 -45 c8 -27 14 -90 14 -158z m-600\n21 c-4 -272 -8 -294 -10 -55 -1 122 1 222 6 222 4 0 6 -75 4 -167z m-2118 32\nc3 -36 2 -52 -3 -40 -12 29 -23 134 -12 115 5 -8 11 -42 15 -75z m1953 -357\nc-1 -40 -3 -10 -3 67 0 77 1 110 3 73 2 -37 2 -100 0 -140z m91 -273 c0 -62\n-3 -99 -7 -85 -4 14 -7 106 -8 205 0 154 1 166 7 85 4 -52 8 -144 8 -205z\nm-1708 239 c0 -14 5 -34 11 -45 9 -17 48 -318 49 -373 0 -15 -3 -16 -14 -6\n-23 18 -36 102 -62 389 -5 54 -4 72 5 67 6 -4 11 -18 11 -32z m1617 -216 c-2\n-35 -3 -9 -3 57 0 66 1 94 3 63 2 -32 2 -86 0 -120z m-1498 30 c14 -112 31\n-297 30 -328 -1 -57 -17 17 -23 115 -4 55 -11 125 -16 155 -5 30 -11 84 -14\n120 -8 93 10 43 23 -62z m89 -25 c7 -54 14 -143 17 -198 4 -88 3 -93 -5 -40\n-16 101 -37 335 -30 335 4 0 12 -44 18 -97z m92 76 c0 -6 4 -52 10 -102 5 -51\n14 -155 20 -232 6 -77 13 -161 15 -187 3 -27 1 -48 -5 -48 -9 0 -14 33 -25\n145 -26 297 -36 393 -40 413 -4 15 -1 22 10 22 8 0 15 -5 15 -11z m259 -51 c6\n-29 15 -132 21 -228 11 -185 16 -245 26 -322 4 -33 2 -48 -5 -48 -7 0 -13 6\n-15 13 -12 43 -27 178 -36 324 -6 92 -14 198 -19 236 -4 37 -5 69 -3 72 13 13\n21 1 31 -47z m1308 -211 c-2 -23 -3 -1 -3 48 0 50 1 68 3 42 2 -26 2 -67 0\n-90z m97 29 c-3 -44 -7 -82 -9 -85 -3 -2 -5 40 -5 95 0 66 3 94 10 84 5 -8 7\n-51 4 -94z m-263 -162 c-9 -38 -9 -38 -10 -7 -1 33 10 74 16 57 2 -6 -1 -28\n-6 -50z m122 -144 c13 -1 -22 -30 -35 -30 -4 0 -8 9 -8 21 0 15 4 19 16 15 9\n-3 21 -6 27 -6z\"/>\n<path d=\"M912 1538 c-33 -33 4 -87 49 -73 26 9 44 52 28 71 -14 17 -61 18 -77\n2z\"/>\n</g>\n</svg>\n\n<br><br><br>\n"

/-- The tail of the error page template, after the interpolated message. -/
def errorTail : String :=
  "\n</center>\n"

/-- Lines 90–178: `error(msg)` renders the custom error page: the template
with the message interpolated. -/
def error (msg : String) : String :=
  errorHead ++ msg ++ errorTail

/-- An HTTP response as the dispatch produces or receives it. -/
structure Resp where
  status : Nat
  body : String
  headers : HeadersL
deriving DecidableEq

/-- Diagnostic events the dispatch emits: access-log lines (lines 181–188,
`console.debug` of `[date] [METHOD] pathname status`) and the local error
diagnostic (`console.warn({ err })`, line 76). -/
inductive Event where
  | logLine (method : String) (pathname : String) (status : Nat)
  | warn (err : String)
deriving DecidableEq

/-- Lines 181–188: `log(req, status = 200)` emits one access-log line with
the request's method, the URL's pathname, and the status.  The timestamp is
runtime state and not modelled.  Call sites that pass no status get the
default 200. -/
def log (req : Request) (status : Nat) : Event :=
  Event.logLine req.method req.pathname status

/-- Recognizer for access-log events (as opposed to the warn diagnostic). -/
def isLogLine : Event → Bool
  | Event.logLine _ _ _ => true
  | Event.warn _ => false

/-- What the caller-supplied handler did on this request, observed at the
call `handler(req, headers)` (line 70): it returned a response or nothing
(`ret`), returned a pending (promise) result that later resolves or rejects
(`retPending`), or threw synchronously (`threw`).  Each constructor carries
the state the mutable header copy was left in. -/
inductive HandlerOutcome where
  | ret (res : Option Resp) (h : HeadersL)
  | retPending (p : Except String Resp) (h : HeadersL)
  | threw (err : String) (h : HeadersL)

/-- Final fate of a request: a response produced by the dispatch (or by the
resolved pending result it returned), or a rejection that escaped the
`try/catch` because the pending result was returned without `await`
(line 73: `return res` inside `try` does not route a later rejection to the
`catch (err)` block). -/
inductive Outcome where
  | response (r : Resp)
  | uncaughtRejection (err : String)
deriving DecidableEq

/-- Lines 67–85: the `catch` block — the dynamic fallback dispatcher.  A
fresh copy of the default header template is handed to the handler; its
result is mapped to the final outcome and the emitted events, in source
order. -/
def dynamicDispatch (opts : Opts) (handler : Option (HeadersL → HandlerOutcome))
    (req : Request) : Outcome × List Event :=
  let headers := headers_defaults opts
  match handler with
  | none =>
      (Outcome.response ⟨404, error "Not Found", hset headers "content-type" "text/html"⟩,
       [log req 404])
  | some f =>
      match f headers with
      | HandlerOutcome.ret (some r) _ =>
          (Outcome.response r, [log req 200])
      | HandlerOutcome.ret none h =>
          (Outcome.response ⟨404, error "Not Found", hset h "content-type" "text/html"⟩,
           [log req 404])
      | HandlerOutcome.retPending (Except.ok r) _ =>
          (Outcome.response r, [log req 200])
      | HandlerOutcome.retPending (Except.error e) _ =>
          (Outcome.uncaughtRejection e, [log req 200])
      | HandlerOutcome.threw err h =>
          (Outcome.response ⟨500, error "Internal Server Error", hset h "content-type" "text/html"⟩,
           [Event.warn err, log req 500])

/-- Lines 47–86: the per-request body of the `Deno.serve` callback.
`fsExists` is the filesystem oracle for `Deno.statSync` on the candidate
path; when the probe succeeds the request is delegated to the external
static-file primitive `sd` with the per-request `serve_opts`.

Modelled from the spec: the external static-file-serving primitive
(`serveDir`, imported from the standard library, not part of this
repository) produces the static response and the Access Logger is invoked
with the primitive's status after it resolves (§4.4); the primitive itself
emits that one access-log line, since `mod.js` does not call `log` on the
static path. -/
def httpdRequest (opts : Opts) (fsExists : String → Bool)
    (sd : Request → ServeOpts → Resp)
    (handler : Option (HeadersL → HandlerOutcome)) (req : Request) :
    Outcome × List Event :=
  if fsExists (staticCandidate opts req.pathname) then
    let r := sd req (serve_opts opts req)
    (Outcome.response r, [log req r.status])
  else
    dynamicDispatch opts handler req

/-- Body of the response the client receives, when one is produced by the
dispatch at all. -/
def outcomeBody : Outcome → Option String
  | Outcome.response r => some r.body
  | Outcome.uncaughtRejection _ => none

/-- A concrete request used by the closed counterexample theorems: a GET
for `/x` with empty query, fragment and credentials. -/
def demoReq : Request := ⟨"GET", "/x", "", "", "", ""⟩

/-- The empty options bag: every recognized key absent. -/
def noOpts : Opts := ⟨none, none, none, none⟩

end Httpd

namespace Httpd

/-! ### Helper lemmas about the `Headers` model and list search -/

lemma hsetGo_filter_self (key v : String) (h : List (String × String)) :
    (hsetGo key v h).filter (fun p => p.1 == key) = [(key, v)] := by
  induction h with
  | nil => simp [hsetGo]
  | cons p rest ih =>
      by_cases hp : p.1 = key
      · simp only [hsetGo, hp, beq_self_eq_true, if_pos]
        simp only [List.filter_cons, beq_self_eq_true, if_pos]
        have : (rest.filter (fun q => !(q.1 == key))).filter (fun p => p.1 == key) = [] := by
          rw [List.filter_filter]
          apply List.filter_eq_nil_iff.mpr
          intro a _
          by_cases ha : a.1 = key <;> simp [ha]
        simp [this]
      · have hp2 : (p.1 == key) = false := by simp [hp]
        simp only [hsetGo, hp2, Bool.false_eq_true, if_neg, not_false_iff]
        simp [List.filter_cons, hp2, ih]

lemma hsetGo_filter_other (key n v : String) (hne : n ≠ key)
    (h : List (String × String)) :
    (hsetGo key v h).filter (fun p => p.1 == n) = h.filter (fun p => p.1 == n) := by
  have hkn : (key == n) = false := beq_eq_false_iff_ne.mpr (Ne.symm hne)
  induction h with
  | nil => simp [hsetGo, hkn]
  | cons p rest ih =>
      by_cases hp : p.1 = key
      · have hpn : (p.1 == n) = false := by
          rw [hp]
          exact hkn
        simp only [hsetGo, hp, beq_self_eq_true, if_pos]
        simp only [List.filter_cons, hkn, hpn, Bool.false_eq_true, if_neg, not_false_iff]
        rw [List.filter_filter]
        apply List.filter_congr
        intro a _
        by_cases ha : a.1 = key <;> by_cases ha2 : a.1 = n <;>
          simp_all
      · have hp2 : (p.1 == key) = false := by simp [hp]
        simp only [hsetGo, hp2, Bool.false_eq_true, if_neg, not_false_iff]
        simp [List.filter_cons, ih]

lemma valuesOf_set_content_type (h : HeadersL) :
    valuesOf (hset h "content-type" "text/html") "content-type" = ["text/html"] := by
  have e1 : lowerStr "content-type" = "content-type" := by decide
  have e2 : trimStr "text/html" = "text/html" := by decide
  simp only [valuesOf, hset, e1, e2, hsetGo_filter_self]
  rfl

lemma valuesOf_set_content_type_other (h : HeadersL) (n : String)
    (hne : lowerStr n ≠ "content-type") :
    valuesOf (hset h "content-type" "text/html") n = valuesOf h n := by
  have e1 : lowerStr "content-type" = "content-type" := by decide
  simp only [valuesOf, hset, e1]
  rw [hsetGo_filter_other "content-type" (lowerStr n) (trimStr "text/html") hne h]

lemma find?_append_first (p : String → Bool) (pre post : List String) (a : String)
    (hpre : ∀ x ∈ pre, p x = false) (ha : p a = true) :
    (pre ++ a :: post).find? p = some a := by
  induction pre with
  | nil => simp [List.find?_cons_of_pos, ha]
  | cons x xs ih =>
      have hx : ¬ (p x = true) := by simp [hpre x (by simp)]
      simp only [List.cons_append, List.find?_cons_of_neg _ hx]
      exact ih (fun y hy => hpre y (by simp [hy]))

lemma serve_opts_headers_of_safe (opts : Opts) (req : Request)
    (hs : safe_htm req = true) :
    (serve_opts opts req).headers =
      (opts.headers.getD []).filter
        (fun e => !(strStartsWith e "content-security-policy")) := by
  simp [serve_opts, hs]

lemma serve_opts_headers_of_not_safe (opts : Opts) (req : Request)
    (hs : safe_htm req = false) :
    (serve_opts opts req).headers = opts.headers.getD [] := by
  simp [serve_opts, hs]

lemma safe_htm_false_of_search (req : Request) (h : req.search ≠ "") :
    safe_htm req = false := by
  have hs : (req.search == "") = false := beq_eq_false_iff_ne.mpr h
  simp [safe_htm, hs]

end Httpd

namespace Httpd

/-! ### Claim theorems -/

/-- C8: Port resolution follows the order: an explicit `port` option wins;
otherwise the first command-line argument matching dash, lowercase p, then
3–5 digits supplies the port (its digits); otherwise the port is 5000, and
arguments not matching the pattern are ignored with no failure.  In
particular `["-p8080"]` with no port option resolves to 8080, and
`{port: 9999}` with `["-p8080"]` resolves to 9999. -/
theorem c8_port_resolution :
    (∀ (p : Nat) (args : List String), resolvePort (some p) args = p) ∧
    resolvePort none ["-p8080"] = 8080 ∧
    resolvePort (some 9999) ["-p8080"] = 9999 ∧
    resolvePort none ["hello", "-p12", "-p8080", "-p9999"] = 8080 ∧
    (∀ args : List String, (∀ a ∈ args, portFlagMatch a = false) →
        resolvePort none args = 5000) ∧
    (∀ (pre post : List String) (a : String), (∀ x ∈ pre, portFlagMatch x = false) →
        portFlagMatch a = true →
        resolvePort none (pre ++ a :: post) = digitsVal (a.data.drop 2)) := by
  refine ⟨fun p args => rfl, by decide, rfl, by decide, ?_, ?_⟩
  · intro args hargs
    have hnone : args.find? portFlagMatch = none := by
      apply List.find?_eq_none.mpr
      intro x hx
      simp [hargs x hx]
    simp only [resolvePort, hnone, Option.getD_none]
    decide
  · intro pre post a hpre ha
    simp [resolvePort, find?_append_first portFlagMatch pre post a hpre ha]

/-- Witness for C8: the universally quantified conjuncts applied at
concrete inputs, hypotheses discharged by evaluation. -/
theorem c8_port_resolution_witness :
    resolvePort (some 7) ["-p8080"] = 7 ∧
    resolvePort none ["zzz"] = 5000 ∧
    resolvePort none (["zzz"] ++ "-p8080" :: []) = 8080 :=
  ⟨c8_port_resolution.1 7 ["-p8080"],
   c8_port_resolution.2.2.2.2.1 ["zzz"] (by decide),
   (c8_port_resolution.2.2.2.2.2 ["zzz"] [] "-p8080" (by decide) (by decide)).trans
     (by decide)⟩

/-- C3 (code bug): with `cors` absent from the options the default header
template built at startup does NOT contain the CORS headers, because line 38
tests the raw truthiness `if (opts.cors)` (absent ⇒ falsy), even though the
very same absent key resolves to `true` for the static path
(`'cors' in opts ? opts.cors : true`, line 62) and the project README lists
CORS headers as a default that `{cors: false}` turns off.  With
`cors: true` the headers are present. -/
theorem c3_cors_absent_omitted_from_template :
    valuesOf (headers_defaults noOpts) "access-control-allow-origin" = [] ∧
    valuesOf (headers_defaults noOpts) "access-control-allow-headers" = [] ∧
    (serve_opts noOpts demoReq).enableCors = true ∧
    valuesOf (headers_defaults ⟨none, some true, none, none⟩)
        "access-control-allow-origin" = ["*"] ∧
    valuesOf (headers_defaults ⟨none, some false, none, none⟩)
        "access-control-allow-origin" = [] := by
  refine ⟨by decide, by decide, rfl, by decide, by decide⟩

/-- C4 (code bug): with `ls` absent from the options and an empty stripped
path, the static probe's candidate is `"index.html"`, not `"."`: line 52
tests the raw truthiness `opts.ls ? '.' : 'index.html'` (absent ⇒ falsy),
even though the same absent key resolves directory listing to enabled for
the static primitive (`'ls' in opts ? opts.ls : true`, line 63) and the
README lists dir listings as a default.  With `ls: true` the candidate is
`"."`; with `ls: false` it is `"index.html"`. -/
theorem c4_ls_absent_probes_index_html :
    staticCandidate noOpts "/" = "index.html" ∧
    (serve_opts noOpts demoReq).showDirListing = true ∧
    staticCandidate ⟨none, none, some true, none⟩ "/" = "." ∧
    staticCandidate ⟨none, none, some false, none⟩ "/" = "index.html" :=
  ⟨rfl, rfl, rfl, rfl⟩

/-- C9: the header list passed to the static-file primitive drops the
configured content-security-policy entries exactly when the safe-HTML
condition holds — method GET, empty query, fragment, username and password,
and a path ending in `.htm`/`.html`; when any condition fails (for example
a non-empty query string) the configured entries pass through unchanged. -/
theorem c9_safe_html_csp_suppression :
    (∀ (opts : Opts) (req : Request), safe_htm req = true →
        (serve_opts opts req).headers =
          (opts.headers.getD []).filter
            (fun e => !(strStartsWith e "content-security-policy"))) ∧
    (∀ (opts : Opts) (req : Request), safe_htm req = false →
        (serve_opts opts req).headers = opts.headers.getD []) ∧
    (∀ req : Request, safe_htm req = true ↔
        (req.method = "GET" ∧ req.search = "" ∧ req.hash = "" ∧
         req.username = "" ∧ req.password = "" ∧
         (strEndsWith req.pathname ".html" = true ∨
          strEndsWith req.pathname ".htm" = true))) ∧
    (∀ (opts : Opts) (req : Request), req.search ≠ "" →
        (serve_opts opts req).headers = opts.headers.getD []) ∧
    (serve_opts ⟨none, none, none, some ["content-security-policy: default-src https:"]⟩
        ⟨"GET", "/docs/index.html", "", "", "", ""⟩).headers = [] ∧
    (serve_opts ⟨none, none, none, some ["content-security-policy: default-src https:"]⟩
        ⟨"GET", "/docs/index.html", "?x=1", "", "", ""⟩).headers =
      ["content-security-policy: default-src https:"] := by
  refine ⟨serve_opts_headers_of_safe, serve_opts_headers_of_not_safe, ?_,
    fun opts req h => serve_opts_headers_of_not_safe opts req
      (safe_htm_false_of_search req h), by decide, by decide⟩
  intro req
  simp [safe_htm, Bool.and_eq_true, Bool.or_eq_true, beq_iff_eq, and_assoc]

/-- Witness for C9: the quantified conjuncts applied to a safe-HTML GET and
to the same GET carrying a query string. -/
theorem c9_safe_html_csp_suppression_witness :
    (serve_opts ⟨none, none, none, some ["content-security-policy: x", "x-a: 1"]⟩
        ⟨"GET", "/a.html", "", "", "", ""⟩).headers = ["x-a: 1"] ∧
    (serve_opts ⟨none, none, none, some ["content-security-policy: x", "x-a: 1"]⟩
        ⟨"GET", "/a.html", "?q=1", "", "", ""⟩).headers =
      ["content-security-policy: x", "x-a: 1"] :=
  ⟨(c9_safe_html_csp_suppression.1
      ⟨none, none, none, some ["content-security-policy: x", "x-a: 1"]⟩
      ⟨"GET", "/a.html", "", "", "", ""⟩ (by decide)).trans (by decide),
   (c9_safe_html_csp_suppression.2.2.2.1
      ⟨none, none, none, some ["content-security-policy: x", "x-a: 1"]⟩
      ⟨"GET", "/a.html", "?q=1", "", "", ""⟩ (by decide)).trans (by decide)⟩

/-- C10: the safe-HTML filter matches case-sensitively on the literal
lowercase text "content-security-policy" at the very start of each
configured header string: under the safe-HTML conditions an entry with
different casing or with leading whitespace does not match and is retained
in the list passed to the static-file primitive. -/
theorem c10_csp_match_case_sensitive :
    (∀ (opts : Opts) (req : Request) (e : String), safe_htm req = true →
        e ∈ opts.headers.getD [] →
        strStartsWith e "content-security-policy" = false →
        e ∈ (serve_opts opts req).headers) ∧
    strStartsWith "Content-Security-Policy: default-src https:"
        "content-security-policy" = false ∧
    strStartsWith " content-security-policy: default-src https:"
        "content-security-policy" = false ∧
    (serve_opts
        ⟨none, none, none, some ["Content-Security-Policy: default-src https:",
          " content-security-policy: default-src https:"]⟩
        ⟨"GET", "/docs/index.html", "", "", "", ""⟩).headers =
      ["Content-Security-Policy: default-src https:",
       " content-security-policy: default-src https:"] := by
  refine ⟨?_, by decide, by decide, by decide⟩
  intro opts req e hs he hpre
  rw [serve_opts_headers_of_safe opts req hs]
  exact List.mem_filter.mpr ⟨he, by simp [hpre]⟩

/-- Witness for C10: a differently-cased configured entry survives the
filter on a safe-HTML GET. -/
theorem c10_csp_match_case_sensitive_witness :
    "Content-Security-Policy: x" ∈
      (serve_opts ⟨none, none, none, some ["Content-Security-Policy: x"]⟩
        ⟨"GET", "/a.html", "", "", "", ""⟩).headers :=
  c10_csp_match_case_sensitive.1
    ⟨none, none, none, some ["Content-Security-Policy: x"]⟩
    ⟨"GET", "/a.html", "", "", "", ""⟩
    "Content-Security-Policy: x" (by decide) (by decide) (by decide)

/-- C5 counterexample: a handler response declaring status 418 is returned,
but the single access-log line records status 200 (the logger's default
used by the bare `log(req)` call on line 72), not the declared 418: the
claim that the log line "records the status the response declares" is
false at this input. -/
theorem c5_log_declared_status_counterexample :
    dynamicDispatch noOpts
        (some (fun h => HandlerOutcome.ret (some ⟨418, "teapot", []⟩) h)) demoReq =
      (Outcome.response ⟨418, "teapot", []⟩, [Event.logLine "GET" "/x" 200]) ∧
    ((418 : Nat) == 200) = false :=
  ⟨rfl, rfl⟩

/-- C5 as amended: when the handler returns a response, that exact response
is returned unmodified in status, body and headers, and the single
access-log line records status 200 — the logger's default — regardless of
the status the response declares. -/
theorem c5_response_verbatim_log_200 :
    ∀ (opts : Opts) (req : Request) (f : HeadersL → HandlerOutcome)
      (r : Resp) (h : HeadersL),
      f (headers_defaults opts) = HandlerOutcome.ret (some r) h →
      dynamicDispatch opts (some f) req = (Outcome.response r, [log req 200]) := by
  intro opts req f r h hf
  simp [dynamicDispatch, hf]

/-- Witness for C5's amended theorem at a concrete handler. -/
theorem c5_response_verbatim_log_200_witness :
    dynamicDispatch noOpts
        (some (fun h => HandlerOutcome.ret (some ⟨418, "teapot", []⟩) h)) demoReq =
      (Outcome.response ⟨418, "teapot", []⟩, [log demoReq 200]) :=
  c5_response_verbatim_log_200 noOpts demoReq
    (fun h => HandlerOutcome.ret (some ⟨418, "teapot", []⟩) h)
    ⟨418, "teapot", []⟩ (headers_defaults noOpts) rfl

/-- C6: when the handler completes without producing a response — or no
handler was supplied — the response carries status 404, the rendered
"Not Found" page as body, and the per-request header copy with
content-type reset to text/html; the reset discards only the handler's
mutation of that one field (all values stored under any other name are
kept), and one log line with status 404 is emitted. -/
theorem c6_handler_nothing_404 :
    (∀ (opts : Opts) (req : Request) (f : HeadersL → HandlerOutcome) (h : HeadersL),
        f (headers_defaults opts) = HandlerOutcome.ret none h →
        dynamicDispatch opts (some f) req =
          (Outcome.response ⟨404, error "Not Found",
             hset h "content-type" "text/html"⟩,
           [log req 404])) ∧
    (∀ (opts : Opts) (req : Request),
        dynamicDispatch opts none req =
          (Outcome.response ⟨404, error "Not Found",
             hset (headers_defaults opts) "content-type" "text/html"⟩,
           [log req 404])) ∧
    (∀ h : HeadersL,
        valuesOf (hset h "content-type" "text/html") "content-type" = ["text/html"]) ∧
    (∀ (h : HeadersL) (n : String), lowerStr n ≠ "content-type" →
        valuesOf (hset h "content-type" "text/html") n = valuesOf h n) := by
  refine ⟨?_, fun opts req => rfl, valuesOf_set_content_type,
    fun h n hne => valuesOf_set_content_type_other h n hne⟩
  intro opts req f h hf
  simp [dynamicDispatch, hf]

/-- Witness for C6: a handler that returns nothing after appending its own
header; the appended header survives the content-type reset. -/
theorem c6_handler_nothing_404_witness :
    dynamicDispatch noOpts
        (some (fun h => HandlerOutcome.ret none (happend h "x-extra" "1"))) demoReq =
      (Outcome.response ⟨404, error "Not Found",
         hset (happend (headers_defaults noOpts) "x-extra" "1")
           "content-type" "text/html"⟩,
       [log demoReq 404]) ∧
    valuesOf (hset [("x-extra", "1")] "content-type" "text/html") "x-extra" = ["1"] :=
  ⟨c6_handler_nothing_404.1 noOpts demoReq
      (fun h => HandlerOutcome.ret none (happend h "x-extra" "1"))
      (happend (headers_defaults noOpts) "x-extra" "1") rfl,
   (c6_handler_nothing_404.2.2.2 [("x-extra", "1")] "x-extra" (by decide)).trans
     (by decide)⟩

/-- C7: when the handler throws synchronously the response carries status
500, the rendered "Internal Server Error" page (a fixed document — the
thrown detail does not occur in its construction, so two different thrown
details yield the identical body) with content-type reset to text/html;
the thrown detail goes only to the local diagnostic stream (the
`console.warn` event), followed by one log line with status 500. -/
theorem c7_sync_throw_500 :
    (∀ (opts : Opts) (req : Request) (f : HeadersL → HandlerOutcome)
        (err : String) (h : HeadersL),
        f (headers_defaults opts) = HandlerOutcome.threw err h →
        dynamicDispatch opts (some f) req =
          (Outcome.response ⟨500, error "Internal Server Error",
             hset h "content-type" "text/html"⟩,
           [Event.warn err, log req 500])) ∧
    (∀ (opts : Opts) (req : Request) (f g : HeadersL → HandlerOutcome)
        (e1 e2 : String) (h1 h2 : HeadersL),
        f (headers_defaults opts) = HandlerOutcome.threw e1 h1 →
        g (headers_defaults opts) = HandlerOutcome.threw e2 h2 →
        outcomeBody (dynamicDispatch opts (some f) req).1 =
          outcomeBody (dynamicDispatch opts (some g) req).1) ∧
    (∀ h : HeadersL,
        valuesOf (hset h "content-type" "text/html") "content-type" = ["text/html"]) := by
  have main : ∀ (opts : Opts) (req : Request) (f : HeadersL → HandlerOutcome)
      (err : String) (h : HeadersL),
      f (headers_defaults opts) = HandlerOutcome.threw err h →
      dynamicDispatch opts (some f) req =
        (Outcome.response ⟨500, error "Internal Server Error",
           hset h "content-type" "text/html"⟩,
         [Event.warn err, log req 500]) := by
    intro opts req f err h hf
    simp [dynamicDispatch, hf]
  refine ⟨main, ?_, valuesOf_set_content_type⟩
  intro opts req f g e1 e2 h1 h2 hf hg
  rw [main opts req f e1 h1 hf, main opts req g e2 h2 hg]
  rfl

/-- Witness for C7: two handlers throwing different details produce the
same fixed 500 body; the detail appears only in the warn diagnostic. -/
theorem c7_sync_throw_500_witness :
    dynamicDispatch noOpts
        (some (fun h => HandlerOutcome.threw "secret detail" h)) demoReq =
      (Outcome.response ⟨500, error "Internal Server Error",
         hset (headers_defaults noOpts) "content-type" "text/html"⟩,
       [Event.warn "secret detail", log demoReq 500]) ∧
    outcomeBody (dynamicDispatch noOpts
        (some (fun h => HandlerOutcome.threw "secret detail" h)) demoReq).1 =
      outcomeBody (dynamicDispatch noOpts
        (some (fun h => HandlerOutcome.threw "other detail" h)) demoReq).1 :=
  ⟨c7_sync_throw_500.1 noOpts demoReq
      (fun h => HandlerOutcome.threw "secret detail" h) "secret detail"
      (headers_defaults noOpts) rfl,
   c7_sync_throw_500.2.1 noOpts demoReq
      (fun h => HandlerOutcome.threw "secret detail" h)
      (fun h => HandlerOutcome.threw "other detail" h)
      "secret detail" "other detail"
      (headers_defaults noOpts) (headers_defaults noOpts) rfl rfl⟩

/-- C2 (code bug): a handler whose pending result rejects is NOT handled as
the handler-threw case.  Line 73 returns the promise from inside `try`
without `await`, so the rejection bypasses `catch (err)`: the dispatch has
already emitted a log line with status 200 and the outcome is an uncaught
rejection — not the rendered 500 page with a 500 log line that the spec
(and the README's "handler throws ⇒ 500 page") prescribe. -/
theorem c2_rejected_pending_escapes_catch :
    dynamicDispatch noOpts
        (some (fun h => HandlerOutcome.retPending (Except.error "boom") h)) demoReq =
      (Outcome.uncaughtRejection "boom", [Event.logLine "GET" "/x" 200]) :=
  rfl

/-- C1: every request emits exactly one access-log line, whatever the probe
result and whatever the handler does; and on each terminal path the line
carries the final status — the static path logs the static primitive's
status (emitted by the primitive itself, see `httpdRequest`), the
no-response paths log 404, the handler-response path logs its single line
once the response exists, and the synchronous-throw path logs 500 after
the warn diagnostic. -/
theorem c1_log_exactly_once :
    (∀ (opts : Opts) (fs : String → Bool) (sd : Request → ServeOpts → Resp)
        (handler : Option (HeadersL → HandlerOutcome)) (req : Request),
        ((httpdRequest opts fs sd handler req).2.countP isLogLine) = 1) ∧
    (∀ (opts : Opts) (fs : String → Bool) (sd : Request → ServeOpts → Resp)
        (handler : Option (HeadersL → HandlerOutcome)) (req : Request),
        fs (staticCandidate opts req.pathname) = true →
        (httpdRequest opts fs sd handler req).2 =
          [log req (sd req (serve_opts opts req)).status]) ∧
    (∀ (opts : Opts) (fs : String → Bool) (sd : Request → ServeOpts → Resp)
        (req : Request),
        fs (staticCandidate opts req.pathname) = false →
        (httpdRequest opts fs sd none req).2 = [log req 404]) ∧
    (∀ (opts : Opts) (fs : String → Bool) (sd : Request → ServeOpts → Resp)
        (f : HeadersL → HandlerOutcome) (req : Request) (r : Resp) (h : HeadersL),
        fs (staticCandidate opts req.pathname) = false →
        f (headers_defaults opts) = HandlerOutcome.ret (some r) h →
        (httpdRequest opts fs sd (some f) req).2 = [log req 200]) ∧
    (∀ (opts : Opts) (fs : String → Bool) (sd : Request → ServeOpts → Resp)
        (f : HeadersL → HandlerOutcome) (req : Request) (h : HeadersL),
        fs (staticCandidate opts req.pathname) = false →
        f (headers_defaults opts) = HandlerOutcome.ret none h →
        (httpdRequest opts fs sd (some f) req).2 = [log req 404]) ∧
    (∀ (opts : Opts) (fs : String → Bool) (sd : Request → ServeOpts → Resp)
        (f : HeadersL → HandlerOutcome) (req : Request) (e : String) (h : HeadersL),
        fs (staticCandidate opts req.pathname) = false →
        f (headers_defaults opts) = HandlerOutcome.threw e h →
        (httpdRequest opts fs sd (some f) req).2 = [Event.warn e, log req 500]) := by
  refine ⟨?_, ?_, ?_, ?_, ?_, ?_⟩
  · intro opts fs sd handler req
    unfold httpdRequest
    cases hfs : fs (staticCandidate opts req.pathname)
    · simp only [Bool.false_eq_true, if_neg, not_false_iff]
      unfold dynamicDispatch
      cases handler with
      | none => simp [List.countP_cons, isLogLine, log]
      | some f =>
          cases hr : f (headers_defaults opts) with
          | ret res h =>
              cases res <;> simp [hr, List.countP_cons, isLogLine, log]
          | retPending p h =>
              cases p <;> simp [hr, List.countP_cons, isLogLine, log]
          | threw e h => simp [hr, List.countP_cons, isLogLine, log]
    · simp [List.countP_cons, isLogLine, log]
  · intro opts fs sd handler req hfs
    simp [httpdRequest, hfs]
  · intro opts fs sd req hfs
    simp [httpdRequest, hfs, dynamicDispatch]
  · intro opts fs sd f req r h hfs hf
    simp [httpdRequest, hfs, dynamicDispatch, hf]
  · intro opts fs sd f req h hfs hf
    simp [httpdRequest, hfs, dynamicDispatch, hf]
  · intro opts fs sd f req e h hfs hf
    simp [httpdRequest, hfs, dynamicDispatch, hf]

/-- Witness for C1: each hypothesis-bearing conjunct applied with concrete
probe and static-primitive oracles and concrete handlers. -/
theorem c1_log_exactly_once_witness :
    (httpdRequest noOpts (fun _ => true) (fun _ _ => ⟨200, "ok", []⟩)
        none demoReq).2 = [log demoReq 200] ∧
    (httpdRequest noOpts (fun _ => false) (fun _ _ => ⟨200, "ok", []⟩)
        none demoReq).2 = [log demoReq 404] ∧
    (httpdRequest noOpts (fun _ => false) (fun _ _ => ⟨200, "ok", []⟩)
        (some (fun h => HandlerOutcome.ret (some ⟨201, "made", []⟩) h)) demoReq).2 =
      [log demoReq 200] ∧
    (httpdRequest noOpts (fun _ => false) (fun _ _ => ⟨200, "ok", []⟩)
        (some (fun h => HandlerOutcome.ret none h)) demoReq).2 = [log demoReq 404] ∧
    (httpdRequest noOpts (fun _ => false) (fun _ _ => ⟨200, "ok", []⟩)
        (some (fun h => HandlerOutcome.threw "boom" h)) demoReq).2 =
      [Event.warn "boom", log demoReq 500] :=
  ⟨c1_log_exactly_once.2.1 noOpts (fun _ => true) (fun _ _ => ⟨200, "ok", []⟩)
      none demoReq rfl,
   c1_log_exactly_once.2.2.1 noOpts (fun _ => false) (fun _ _ => ⟨200, "ok", []⟩)
      demoReq rfl,
   c1_log_exactly_once.2.2.2.1 noOpts (fun _ => false) (fun _ _ => ⟨200, "ok", []⟩)
      (fun h => HandlerOutcome.ret (some ⟨201, "made", []⟩) h) demoReq
      ⟨201, "made", []⟩ (headers_defaults noOpts) rfl rfl,
   c1_log_exactly_once.2.2.2.2.1 noOpts (fun _ => false) (fun _ _ => ⟨200, "ok", []⟩)
      (fun h => HandlerOutcome.ret none h) demoReq
      (headers_defaults noOpts) rfl rfl,
   c1_log_exactly_once.2.2.2.2.2 noOpts (fun _ => false) (fun _ _ => ⟨200, "ok", []⟩)
      (fun h => HandlerOutcome.threw "boom" h) demoReq "boom"
      (headers_defaults noOpts) rfl rfl⟩

end Httpd
